import Mathlib

/-!
Shallow embedding of the theater-time layout negotiator
(src/typedefs.hpp, src/directors.hpp, src/main.cpp).

C++ `float` is modelled as `ℚ` (the code performs only comparisons, `min`,
addition and subtraction, which we read as exact arithmetic).  The C++
`std::variant<def, lnt>` becomes a two-constructor inductive; since `def` is
a Lean keyword, that constructor is spelled `defv`.  The opaque render token
(`std::function<void(Screen&)>` inside `preproduction`) is modelled as a type
parameter `τ`, which the negotiation loop forwards untouched.
-/

namespace val

/-- `val::def` / `val::lnt` variants of `val::Direction`
(`using Direction = std::variant<def, lnt>;` in typedefs.hpp).
`defv value` is the strict (`def`) variant, `lnt value` the lenient one. -/
inductive Direction where
  | defv (value : ℚ)
  | lnt (value : ℚ)
deriving DecidableEq

/-- `val::extract`: pull the numeric value out of either variant. -/
def extract (value : Direction) : ℚ :=
  match value with
  | .defv v => v
  | .lnt v => v

/-- `val::Stage`: absolute rectangle `{left, right, top, bottom}`. -/
structure Stage where
  left : ℚ
  right : ℚ
  top : ℚ
  bottom : ℚ
deriving DecidableEq

/-- `val::Stage::Aspect` enum. -/
inductive Aspect where
  | horizontal
  | vertical
deriving DecidableEq

/-- `val::Stage::aspect()`:
`if (right - left > bottom - top) return Aspect::horizontal; return Aspect::vertical;` -/
def Stage.aspect (s : Stage) : Aspect :=
  if s.right - s.left > s.bottom - s.top then .horizontal else .vertical

/-- `val::AxisDirection`: lower and upper bound of one axis. -/
structure AxisDirection where
  low : Direction
  high : Direction
deriving DecidableEq

/-- `using performance = Stage;` -/
abbrev performance := Stage

/-- `val::Instruction`: what actors receive from directors. -/
structure Instruction where
  horizontal : AxisDirection
  vertical : AxisDirection
deriving DecidableEq

/-- `val::StageLayout` (all fields default to `0` in the C++ struct). -/
structure StageLayout where
  x_offset : ℚ
  y_offset : ℚ
  horizontal_margin : ℚ
  vertical_margin : ℚ
  x_size : ℚ
  y_size : ℚ
deriving DecidableEq

/-- `val::instruct_fn`. -/
abbrev instruct_fn := Stage → StageLayout → Instruction

/-- `val::adjust_fn`. -/
abbrev adjust_fn := Stage → performance → StageLayout → StageLayout

/-- `val::Director`: a policy value with `instruct` and `adjust`. -/
structure Director where
  instruct : instruct_fn
  adjust : adjust_fn

/-- `using preproduction = std::pair<val::Stage, std::function<void(Screen&)>>;`
with the render token made a type parameter `τ`. -/
abbrev preproduction (τ : Type) := Stage × τ

/-- `val::Actor`: holds the perform function (`perfom` keeps the source spelling). -/
structure Actor (τ : Type) where
  perfom : Instruction → String → preproduction τ

/-- `val::Crew`: a director plus an actor. -/
structure Crew (τ : Type) where
  director : Director
  actor : Actor τ

/-- `val::Set`: the state threaded through the negotiation loop. -/
structure Set (τ : Type) where
  stage : Stage
  stage_layout : StageLayout
  crew : Crew τ

/-- `val::resolve_axis`: the four-case overloaded visitor on `(low, high)`. -/
def resolve_axis (instruction : AxisDirection) (incoming_value : ℚ) : ℚ :=
  match instruction.low, instruction.high with
  | .defv lower, .defv upper =>
      if incoming_value < lower then lower else upper
  | .defv lower, .lnt upper =>
      if incoming_value < lower then lower else min upper incoming_value
  | .lnt lower, .lnt upper =>
      if incoming_value < lower then lower else min upper incoming_value
  | .lnt _, .defv upper => upper

/-- `val::resolve_direction`: single-bound resolution. -/
def resolve_direction (d : Direction) (incoming_value : ℚ) : ℚ :=
  match d with
  | .lnt v => min v incoming_value
  | .defv v => v

end val

namespace dir

/-- `dir::Lenient`: wrap a value as a lenient direction. -/
def Lenient (v : ℚ) : val.Direction := .lnt v

/-- `dir::Strict`: wrap a value as a strict direction. -/
def Strict (v : ℚ) : val.Direction := .defv v

namespace stack

/-- `dir::stack::horizontal_next`. -/
def horizontal_next : val.instruct_fn := fun stage layout =>
  { horizontal := { low := Strict (layout.x_offset + layout.horizontal_margin)
                    high := Lenient stage.right }
    vertical := { low := Strict stage.top, high := Lenient stage.bottom } }

/-- `dir::stack::horizontal_adjust`. -/
def horizontal_adjust : val.adjust_fn := fun _ perf layout =>
  { layout with
    x_offset := layout.x_offset + ((perf.right - perf.left) + 1 + layout.horizontal_margin)
    x_size := layout.x_size + (perf.left + perf.right) }

/-- `dir::stack::vertical_next`. -/
def vertical_next : val.instruct_fn := fun stage layout =>
  { horizontal := { low := Strict stage.left, high := Lenient stage.right }
    vertical := { low := Strict (layout.y_offset + layout.vertical_margin)
                  high := Lenient stage.bottom } }

/-- `dir::stack::vertical_adjust`. -/
def vertical_adjust : val.adjust_fn := fun _ perf layout =>
  { layout with
    y_offset := layout.y_offset + ((perf.bottom - perf.top) + 1 + layout.vertical_margin)
    y_size := layout.y_size + (perf.top + perf.bottom + 1) }

/-- `dir::stack::magically_next`: dispatch on the stage aspect. -/
def magically_next : val.instruct_fn := fun stage layout =>
  match stage.aspect with
  | .horizontal => horizontal_next stage layout
  | .vertical => vertical_next stage layout

/-- `dir::stack::magically_adjust`: dispatch on the stage aspect. -/
def magically_adjust : val.adjust_fn := fun stage perf layout =>
  match stage.aspect with
  | .horizontal => horizontal_adjust stage perf layout
  | .vertical => vertical_adjust stage perf layout

/-- `dir::stack::horizontally`. -/
def horizontally : val.Director := ⟨horizontal_next, horizontal_adjust⟩

/-- `dir::stack::vertically`. -/
def vertically : val.Director := ⟨vertical_next, vertical_adjust⟩

/-- `dir::stack::magically`. -/
def magically : val.Director := ⟨magically_next, magically_adjust⟩

end stack

end dir

/-- `act_scene` (main.cpp): one negotiation step — instruct, perform, adjust. -/
def act_scene {τ : Type} (set : val.Set τ) (script : String) :
    val.Set τ × val.preproduction τ :=
  let stage := set.stage
  let stage_layout := set.stage_layout
  let director := set.crew.director
  let performer := set.crew.actor
  let instruction := director.instruct stage stage_layout
  let result := performer.perfom instruction script
  (⟨stage, director.adjust stage result.1 stage_layout, ⟨director, performer⟩⟩, result)

/-- `produce_scene` (main.cpp): forwards to `act_scene`. -/
def produce_scene {τ : Type} (set : val.Set τ) (script : String) :
    val.Set τ × val.preproduction τ :=
  act_scene set script

/-- `produce_scenes` (main.cpp): the negotiation loop.  The C++ keeps a deque
of `Set`s and only ever reads its back, and appends each preproduction to
`into`; modelled as threading the current `Set` and accumulating into `into`. -/
def produce_scenes {τ : Type} (initial_set : val.Set τ)
    (into : List (val.preproduction τ)) (scripts : List String) :
    List (val.preproduction τ) :=
  match scripts with
  | [] => into
  | script :: rest =>
      let preprod := produce_scene initial_set script
      produce_scenes preprod.1 (into ++ [preprod.2]) rest

/-- The `Set` reached after folding `act_scene` over a prefix of the scripts
(the state the loop holds when it starts on the next script). -/
def set_after {τ : Type} (set : val.Set τ) (scripts : List String) : val.Set τ :=
  match scripts with
  | [] => set
  | script :: rest => set_after (act_scene set script).1 rest

/-! ### Concrete fixtures used by scenario theorems and witnesses -/

/-- The stage of spec Scenario 1. -/
def scenario_stage : val.Stage := ⟨0, 200, 0, 40⟩

/-- An all-zero `StageLayout` (`val::StageLayout` default-initialised). -/
def zero_layout : val.StageLayout := ⟨0, 0, 0, 0, 0, 0⟩

/-- A 40-wide placement (`right - left = 40`) as in spec Scenario 1. -/
def scenario_perf : val.performance := ⟨0, 40, 0, 4⟩

/-- A wide stage (`right-left = 60 > bottom-top = 20`). -/
def wide_stage : val.Stage := ⟨0, 60, 0, 20⟩

/-- A square stage (`right-left = bottom-top = 30`): aspect tie. -/
def square_stage : val.Stage := ⟨0, 30, 0, 30⟩

/-- A sample performer resolving each script to a rectangle whose width is
the script length, tagging it with that length; used to witness loop claims. -/
def sample_actor : val.Actor ℚ :=
  ⟨fun ins script =>
    (⟨val.extract ins.horizontal.low,
      val.extract ins.horizontal.low + script.length, 0, 2⟩, (script.length : ℚ))⟩

/-- A sample initial `Set` for loop witnesses. -/
def sample_set : val.Set ℚ :=
  ⟨wide_stage, zero_layout, ⟨dir.stack.horizontally, sample_actor⟩⟩

/-! ### Helper lemmas -/

/-- The accumulator `into` of `produce_scenes` is a pure prefix: running with
any accumulator equals that accumulator followed by the run from `[]`. -/
theorem produce_scenes_into_append {τ : Type} (scripts : List String) :
    ∀ (set : val.Set τ) (into : List (val.preproduction τ)),
      produce_scenes set into scripts = into ++ produce_scenes set [] scripts := by
  induction scripts with
  | nil => intro set into; simp [produce_scenes]
  | cons script rest ih =>
      intro set into
      simp only [produce_scenes, List.nil_append]
      rw [ih, ih (produce_scene set script).1 [(produce_scene set script).2]]
      simp

/-! ### Claim theorems -/

/-- C1: `resolve_axis` follows the four-case table: Fixed/Fixed gives the low
value below the floor and the high value otherwise; Fixed/Flexible and
Flexible/Flexible give the low value below the floor and `min high incoming`
otherwise; Flexible/Fixed always gives the high value. -/
theorem resolve_axis_table (a b x : ℚ) :
    val.resolve_axis ⟨.defv a, .defv b⟩ x = (if x < a then a else b) ∧
    val.resolve_axis ⟨.defv a, .lnt b⟩ x = (if x < a then a else min b x) ∧
    val.resolve_axis ⟨.lnt a, .lnt b⟩ x = (if x < a then a else min b x) ∧
    val.resolve_axis ⟨.lnt a, .defv b⟩ x = b :=
  ⟨rfl, rfl, rfl, rfl⟩

/-- C2 counterexample: in Scenario 1 the second `next` call's horizontal range
is not `{Fixed(41), Flexible(159)}` — the high bound stays `Flexible(200)`
because `horizontal_next` always uses `stage.right` and the stage is never
shrunk. -/
theorem scenario1_second_next_not_as_claimed :
    ¬ (dir.stack.horizontal_next scenario_stage
        (dir.stack.horizontal_adjust scenario_stage scenario_perf zero_layout)).horizontal =
      ⟨dir.Strict 41, dir.Lenient 159⟩ := by
  norm_num [dir.stack.horizontal_next, dir.stack.horizontal_adjust, scenario_stage,
    scenario_perf, zero_layout, dir.Strict, dir.Lenient]

/-- C2 (amended): with `Stage{0,200,0,40}`, stack-horizontally, margins 0 and an
all-zero cursor, the first `next` yields horizontal range `{Fixed 0, Flexible 200}`;
after a 40-wide placement `advance` yields `x_offset = 41`; and the second `next`
yields horizontal range `{Fixed 41, Flexible 200}` (not `Flexible 159`: the high
bound is always `Flexible stage.right` and the stage never changes). -/
theorem scenario1_amended (perf : val.performance) (h : perf.right - perf.left = 40) :
    (dir.stack.horizontal_next scenario_stage zero_layout).horizontal =
      ⟨dir.Strict 0, dir.Lenient 200⟩ ∧
    (dir.stack.horizontal_adjust scenario_stage perf zero_layout).x_offset = 41 ∧
    (dir.stack.horizontal_next scenario_stage
        (dir.stack.horizontal_adjust scenario_stage perf zero_layout)).horizontal =
      ⟨dir.Strict 41, dir.Lenient 200⟩ := by
  refine ⟨?_, ?_, ?_⟩
  · norm_num [dir.stack.horizontal_next, scenario_stage, zero_layout, dir.Strict, dir.Lenient]
  · simp [dir.stack.horizontal_adjust, zero_layout, h]
    norm_num
  · norm_num [dir.stack.horizontal_next, dir.stack.horizontal_adjust, scenario_stage,
      zero_layout, dir.Strict, dir.Lenient, h]

/-- C2 witness: the amended scenario instantiated at the concrete 40-wide
placement `scenario_perf`. -/
theorem scenario1_amended_witness :
    scenario_perf.right - scenario_perf.left = 40 ∧
    ((dir.stack.horizontal_next scenario_stage zero_layout).horizontal =
        ⟨dir.Strict 0, dir.Lenient 200⟩ ∧
      (dir.stack.horizontal_adjust scenario_stage scenario_perf zero_layout).x_offset = 41 ∧
      (dir.stack.horizontal_next scenario_stage
          (dir.stack.horizontal_adjust scenario_stage scenario_perf zero_layout)).horizontal =
        ⟨dir.Strict 41, dir.Lenient 200⟩) :=
  ⟨by norm_num [scenario_perf], scenario1_amended scenario_perf (by norm_num [scenario_perf])⟩

/-- C3: `horizontal_adjust` adds `(right-left)+1+horizontal_margin` to
`x_offset` and `left+right` to `x_size`, leaving all other fields unchanged;
`vertical_adjust` adds `(bottom-top)+1+vertical_margin` to `y_offset` and
`top+bottom+1` to `y_size`, leaving all other fields unchanged. -/
theorem stack_adjust_effect (stage : val.Stage) (perf : val.performance)
    (layout : val.StageLayout) :
    dir.stack.horizontal_adjust stage perf layout =
      { layout with
        x_offset := layout.x_offset + ((perf.right - perf.left) + 1 + layout.horizontal_margin)
        x_size := layout.x_size + (perf.left + perf.right) } ∧
    dir.stack.vertical_adjust stage perf layout =
      { layout with
        y_offset := layout.y_offset + ((perf.bottom - perf.top) + 1 + layout.vertical_margin)
        y_size := layout.y_size + (perf.top + perf.bottom + 1) } :=
  ⟨rfl, rfl⟩

/-- C4: `horizontal_next` yields horizontal range
`{Fixed (x_offset + horizontal_margin), Flexible stage.right}` and vertical
range `{Fixed stage.top, Flexible stage.bottom}` for every stage and cursor. -/
theorem horizontal_next_spec (stage : val.Stage) (layout : val.StageLayout) :
    dir.stack.horizontal_next stage layout =
      { horizontal := ⟨dir.Strict (layout.x_offset + layout.horizontal_margin),
                       dir.Lenient stage.right⟩
        vertical := ⟨dir.Strict stage.top, dir.Lenient stage.bottom⟩ } :=
  rfl

/-- C5: the adaptive policy delegates `next` and `advance` to the horizontal
stacker exactly when `right-left > bottom-top`, and to the vertical stacker
otherwise (so a width = height tie goes to vertical). -/
theorem magically_delegation (stage : val.Stage) (perf : val.performance)
    (layout : val.StageLayout) :
    (stage.right - stage.left > stage.bottom - stage.top →
      dir.stack.magically_next stage layout = dir.stack.horizontal_next stage layout ∧
      dir.stack.magically_adjust stage perf layout =
        dir.stack.horizontal_adjust stage perf layout) ∧
    (stage.right - stage.left ≤ stage.bottom - stage.top →
      dir.stack.magically_next stage layout = dir.stack.vertical_next stage layout ∧
      dir.stack.magically_adjust stage perf layout =
        dir.stack.vertical_adjust stage perf layout) := by
  constructor
  · intro h
    constructor
    · simp [dir.stack.magically_next, val.Stage.aspect, h]
    · simp [dir.stack.magically_adjust, val.Stage.aspect, h]
  · intro h
    constructor
    · simp [dir.stack.magically_next, val.Stage.aspect, not_lt.mpr h]
    · simp [dir.stack.magically_adjust, val.Stage.aspect, not_lt.mpr h]

/-- C5 witness: delegation evaluated on a wide stage (horizontal branch) and on
a square stage (the tie, vertical branch). -/
theorem magically_delegation_witness :
    (dir.stack.magically_next wide_stage zero_layout =
        dir.stack.horizontal_next wide_stage zero_layout ∧
      dir.stack.magically_adjust wide_stage scenario_perf zero_layout =
        dir.stack.horizontal_adjust wide_stage scenario_perf zero_layout) ∧
    (dir.stack.magically_next square_stage zero_layout =
        dir.stack.vertical_next square_stage zero_layout ∧
      dir.stack.magically_adjust square_stage scenario_perf zero_layout =
        dir.stack.vertical_adjust square_stage scenario_perf zero_layout) :=
  ⟨(magically_delegation wide_stage scenario_perf zero_layout).1
      (by norm_num [wide_stage]),
    (magically_delegation square_stage scenario_perf zero_layout).2
      (by norm_num [square_stage])⟩

/-- C6: the negotiation loop is the strict left-to-right fold of
(`instruct`, `perfom`, `adjust`): it emits one preproduction per script, and
the i-th output is the result of `act_scene` on the i-th script run from the
`Set` obtained by folding `act_scene` over the first i scripts. -/
theorem produce_scenes_fold {τ : Type} (set : val.Set τ) (scripts : List String) :
    (produce_scenes set [] scripts).length = scripts.length ∧
    ∀ i (h : i < scripts.length),
      (produce_scenes set [] scripts)[i]? =
        some (act_scene (set_after set (scripts.take i)) (scripts.get ⟨i, h⟩)).2 := by
  induction scripts generalizing set with
  | nil => exact ⟨rfl, fun i h => absurd h (Nat.not_lt_zero i)⟩
  | cons script rest ih =>
      have hstep : produce_scenes set [] (script :: rest) =
          (act_scene set script).2 :: produce_scenes (act_scene set script).1 [] rest := by
        simp only [produce_scenes, produce_scene, List.nil_append]
        rw [produce_scenes_into_append rest (act_scene set script).1
          [(act_scene set script).2]]
        simp
      constructor
      · rw [hstep]
        simp [(ih (act_scene set script).1).1]
      · intro i h
        rw [hstep]
        cases i with
        | zero => simp [set_after]
        | succ j =>
            have hj : j < rest.length := Nat.lt_of_succ_lt_succ h
            simp only [List.getElem?_cons_succ, List.take_succ_cons, List.get_cons_succ]
            have := (ih (act_scene set script).1).2 j hj
            simpa [set_after] using this

/-- C6 witness: the fold property evaluated on a concrete two-script run. -/
theorem produce_scenes_fold_witness :
    (produce_scenes sample_set [] ["ab", "c"]).length = 2 ∧
    (produce_scenes sample_set [] ["ab", "c"])[1]? =
      some (act_scene (set_after sample_set (["ab", "c"].take 1)) "c").2 :=
  ⟨(produce_scenes_fold sample_set ["ab", "c"]).1,
    (produce_scenes_fold sample_set ["ab", "c"]).2 1 (by decide)⟩

/-- C7: one negotiation step (`act_scene`) returns a `Set` with the same stage,
director and performer it was given; only the `StageLayout` component changes. -/
theorem act_scene_frame {τ : Type} (set : val.Set τ) (script : String) :
    (act_scene set script).1.stage = set.stage ∧
    (act_scene set script).1.crew.director = set.crew.director ∧
    (act_scene set script).1.crew.actor = set.crew.actor :=
  ⟨rfl, rfl, rfl⟩

/-- C8: with both bounds Fixed, once the incoming value meets the floor the
result of `resolve_axis` does not depend on the incoming value. -/
theorem fixed_fixed_noninterference (a b x1 x2 : ℚ) (h1 : x1 ≥ a) (h2 : x2 ≥ a) :
    val.resolve_axis ⟨.defv a, .defv b⟩ x1 = val.resolve_axis ⟨.defv a, .defv b⟩ x2 := by
  simp [val.resolve_axis, not_lt.mpr h1, not_lt.mpr h2]

/-- C8 witness: noninterference at the concrete range `{Fixed 10, Fixed 50}`
with incoming values 30 and 45. -/
theorem fixed_fixed_noninterference_witness :
    (30 : ℚ) ≥ 10 ∧ (45 : ℚ) ≥ 10 ∧
    val.resolve_axis ⟨.defv 10, .defv 50⟩ 30 = val.resolve_axis ⟨.defv 10, .defv 50⟩ 45 :=
  ⟨by norm_num, by norm_num,
    fixed_fixed_noninterference 10 50 30 45 (by norm_num) (by norm_num)⟩

/-- C9: single-bound resolution returns `min v x` for `Flexible v` and `v`
(ignoring the incoming value) for `Fixed v`. -/
theorem resolve_direction_spec (v x : ℚ) :
    val.resolve_direction (.lnt v) x = min v x ∧
    val.resolve_direction (.defv v) x = v :=
  ⟨rfl, rfl⟩

/-- C10: when the incoming value meets a Flexible low bound, full-axis
resolution agrees with single-bound resolution of the high bound, for a high
bound of either kind. -/
theorem flexible_low_reduces_to_high (a x : ℚ) (b : val.Direction) (h : x ≥ a) :
    val.resolve_axis ⟨.lnt a, b⟩ x = val.resolve_direction b x := by
  cases b with
  | defv bv => rfl
  | lnt bv => simp [val.resolve_axis, val.resolve_direction, not_lt.mpr h]

/-- C10 witness: the reduction evaluated at `a = 10`, high bound `Flexible 50`,
incoming value 30. -/
theorem flexible_low_reduces_to_high_witness :
    (30 : ℚ) ≥ 10 ∧
    val.resolve_axis ⟨.lnt 10, .lnt 50⟩ 30 = val.resolve_direction (.lnt 50) 30 :=
  ⟨by norm_num, flexible_low_reduces_to_high 10 30 (.lnt 50) (by norm_num)⟩
